import Mathlib

/-!
Shallow embedding of the plangenerator front-end components.

The repository is a React form application.  The pieces the verification
needs are embedded as pure Lean functions:

* `AutoVastuForm` (src/frontend/src/components/AutoVastuForm.js):
  `validateForm` and `handleSubmit` over its form state.
* `VastuPlannerForm` (src/unnamed/part_001): its `validateForm`.
* `FloorPlanGenerator` (src/unnamed/part_000): `addRoom` and `removeRoom`
  over the rooms list.
* `FloorPlanResults` (src/frontend/src/components/FloorPlanResults.js):
  the render function, taken at its steady state after the mount effect
  (the `useEffect` at lines 14-20) has run.

JavaScript numbers are modelled as rationals (`ℚ`); `NaN` and the empty
input string are modelled explicitly where the code distinguishes them.
Network effects are modelled by returning, alongside the new component
state, the list of requests the handler issues, and by passing the
outcome of the single `fetch` as an explicit parameter.
-/

/-- The value held by a numeric form field of `AutoVastuForm`.
`handleInputChange` (AutoVastuForm.js lines 34-42) stores
`parseFloat(value)` for the `plot_width` / `plot_length` fields, which is
`NaN` when the input is cleared; the initial state (lines 11-12) holds the
empty string. -/
inductive JSVal where
  | emptyStr
  | nan
  | num (q : ℚ)
deriving DecidableEq

/-- JavaScript truthiness of a numeric field value: the empty string,
`NaN` and `0` are falsy, every other number is truthy. -/
def JSVal.truthy : JSVal → Bool
  | .emptyStr => false
  | .nan => false
  | .num q => q != 0

/-- The JavaScript comparison `x <= 0` on a field value: the empty string
coerces to `0` (so the comparison holds), any comparison with `NaN` is
false. -/
def JSVal.leZero : JSVal → Bool
  | .emptyStr => true
  | .nan => false
  | .num q => q ≤ 0

/-- The JavaScript `Number(x)` coercion used by `handleSubmit`
(AutoVastuForm.js lines 64-65): the empty string coerces to `0`, `NaN`
stays `NaN` (modelled as `none`), a number is unchanged. -/
def JSVal.toNumber : JSVal → Option ℚ
  | .emptyStr => some 0
  | .nan => none
  | .num q => some q

/-- The JavaScript `a || b` fallback on an optional string: `undefined`
and the empty string are falsy. Used for the `errorData.detail` fallback
(AutoVastuForm.js line 88). -/
def jsOr (s : Option String) (dflt : String) : String :=
  match s with
  | none => dflt
  | some d => if d = "" then dflt else d

/-- Models the JavaScript number-to-string conversion used when a numeric
value is interpolated into JSX text.  Floating-point values are modelled
as rationals; on integral values (the only ones the claims exercise) this
agrees with the JavaScript ToString. -/
def jsStr (q : ℚ) : String :=
  if q.den = 1 then toString q.num else toString q.num ++ "/" ++ toString q.den

namespace AutoVastuForm

/-- The `formData` state of `AutoVastuForm` (AutoVastuForm.js lines 9-15). -/
structure FormData where
  plot_direction : String
  plot_width : JSVal
  plot_length : JSVal
  plot_shape : String
  main_door_position : String
deriving DecidableEq

/-- The initial `formData` (AutoVastuForm.js lines 9-15): the dimension
fields hold the empty string. -/
def initialFormData : FormData :=
  { plot_direction := "north", plot_width := .emptyStr, plot_length := .emptyStr,
    plot_shape := "rectangular", main_door_position := "east" }

/-- `validateForm` (AutoVastuForm.js lines 44-53): pushes a message for a
dimension that is falsy (empty, `NaN`, `0`) or `<= 0`, and returns the
accumulated error list. -/
def validateForm (f : FormData) : List String :=
  (if !f.plot_width.truthy || f.plot_width.leZero
    then ["Plot width must be greater than 0"] else [])
  ++ (if !f.plot_length.truthy || f.plot_length.leZero
    then ["Plot length must be greater than 0"] else [])

/-- The `requestData` object built by `handleSubmit`
(AutoVastuForm.js lines 62-68); the dimension fields go through
`Number(...)`, with `none` standing for `NaN`. -/
structure RequestData where
  plot_direction : String
  plot_width : Option ℚ
  plot_length : Option ℚ
  plot_shape : String
  main_door_position : String
deriving DecidableEq

/-- Construction of `requestData` from the form state
(AutoVastuForm.js lines 62-68). -/
def requestDataOf (f : FormData) : RequestData :=
  { plot_direction := f.plot_direction,
    plot_width := f.plot_width.toNumber,
    plot_length := f.plot_length.toNumber,
    plot_shape := f.plot_shape,
    main_door_position := f.main_door_position }

end AutoVastuForm

/-- One room placement of the service response, as rendered by
`FloorPlanResults` (FloorPlanResults.js lines 89-94). -/
structure RoomPlacement where
  room_type : String
  direction : String
  width : ℚ
  length : ℚ
deriving DecidableEq

/-- The `plan_details` object of the service response, as destructured by
`FloorPlanResults` (FloorPlanResults.js lines 35-46).  `plan_image_url`
is `none` when the field is absent; `room_placements` and
`validation_messages` default to `[]` when absent (the destructuring
defaults); the unused `remedies` field is not modelled. -/
structure PlanDetails where
  plot_width : ℚ
  plot_length : ℚ
  direction : String
  shape : String
  main_door : String
  plan_image_url : Option String
  room_placements : List RoomPlacement
  validation_messages : List String
deriving DecidableEq

/-- The floor-plan object carried in navigation state and consumed by
`FloorPlanResults` (FloorPlanResults.js line 12). -/
structure FloorPlan where
  plan_details : PlanDetails
deriving DecidableEq

namespace AutoVastuForm

/-- Outcome of the single `fetch` issued by `handleSubmit`: a transport
error (the promise rejects), or a response with its `ok` flag, the
`detail` field of the error body, and the parsed success body. -/
inductive FetchOutcome where
  | networkError (message : String)
  | response (ok : Bool) (detail : Option String) (body : FloorPlan)
deriving DecidableEq

/-- The component state after `handleSubmit` returns: the `error` and
`loading` state hooks, the requests issued, the navigation performed
(`/results` with `{ floorPlan, originalInput }`), and the form fields,
which `handleSubmit` never writes. -/
structure SubmitResult where
  error : Option String
  loading : Bool
  requests : List RequestData
  navigated : Option (FloorPlan × RequestData)
  formData : FormData
deriving DecidableEq

/-- `handleSubmit` (AutoVastuForm.js lines 56-104).  It builds
`requestData`, aborts with a message when a dimension is `NaN`
(lines 71-75), otherwise issues the POST; a transport error or a non-2xx
response sets the error message (lines 86-100), a 2xx response navigates
to `/results` carrying the body and the original input (lines 91-97); the
`finally` block clears the loading flag (line 102).  Note that
`validateForm` is never called. -/
def handleSubmit (f : FormData) (outcome : FetchOutcome) : SubmitResult :=
  let rd := requestDataOf f
  if rd.plot_width.isNone || rd.plot_length.isNone then
    { error := some "Please enter valid numbers for width and length",
      loading := false, requests := [], navigated := none, formData := f }
  else
    match outcome with
    | .networkError msg =>
        { error := some msg, loading := false, requests := [rd],
          navigated := none, formData := f }
    | .response ok detail body =>
        if ok then
          { error := none, loading := false, requests := [rd],
            navigated := some (body, rd), formData := f }
        else
          { error := some (jsOr detail "Failed to generate floor plan"),
            loading := false, requests := [rd], navigated := none, formData := f }

/-- Whether a fetch outcome is a failed submission: a transport error or
a non-2xx response. -/
def FetchOutcome.isFailure : FetchOutcome → Bool
  | .networkError _ => true
  | .response ok _ _ => !ok

end AutoVastuForm

namespace VastuPlannerForm

/-- The `formData` state of `VastuPlannerForm` (part_001 lines 7-16).
The dimension fields are number inputs whose values stay strings; they
are modelled by the parsed value, `none` for the empty string.  JavaScript
truthiness of such a string is exactly non-emptiness (the string "0" is
truthy), i.e. `isSome` of the model. -/
structure FormData where
  plotLength : Option ℚ
  plotWidth : Option ℚ
  plotDirection : String
  mainDoor : String
  kitchenPreference : String
  poojaRoom : String
  bedrooms : String
  parking : Bool
deriving DecidableEq

/-- `validateForm` (part_001 lines 40-57): builds the `newErrors` object,
modelled as the list of its (key, message) entries in insertion order;
validation passes iff the list is empty. -/
def validateForm (f : FormData) : List (String × String) :=
  (if f.plotLength.isNone || f.plotWidth.isNone
    then [("plot", "Plot dimensions are required")] else [])
  ++ (if f.plotDirection = ""
    then [("direction", "Plot direction is required")] else [])
  ++ (if f.mainDoor = "South" && f.plotDirection = "South"
    then [("vastuConflict",
      "South-facing main door for south-facing plot is not recommended")] else [])

end VastuPlannerForm

namespace FloorPlanGenerator

/-- A room entry of the form state of `FloorPlanGenerator` (part_000
lines 13-19). -/
structure Room where
  width : ℚ
  length : ℚ
  position_x : ℚ
  position_y : ℚ
  room_type : String
deriving DecidableEq

/-- The default room pushed by `addRoom` (part_000 lines 48-54). -/
def defaultNewRoom : Room :=
  { width := 4, length := 5, position_x := 0, position_y := 0, room_type := "bedroom" }

/-- `addRoom` (part_000 lines 45-56): spreads the current rooms and
appends a default bedroom. -/
def addRoom (rooms : List Room) : List Room :=
  rooms ++ [defaultNewRoom]

/-- `removeRoom` (part_000 lines 58-63):
`prev.rooms.filter((_, i) => i !== index)`, the index-aware `filter`
modelled via `List.enum`. -/
def removeRoom (index : ℕ) (rooms : List Room) : List Room :=
  (rooms.enum.filter (fun p => p.1 ≠ index)).map Prod.snd

end FloorPlanGenerator

namespace FloorPlanResults

/-- The navigation state received by `FloorPlanResults`: `AutoVastuForm`
navigates with `{ floorPlan, originalInput }` (AutoVastuForm.js
lines 92-97).  The component destructures only `floorPlan`
(FloorPlanResults.js line 12). -/
structure NavState where
  floorPlan : Option FloorPlan
  originalInput : Option AutoVastuForm.RequestData
deriving DecidableEq

/-- `const \x7b floorPlan \x7d = location.state || \x7b\x7d`
(FloorPlanResults.js line 12): missing navigation state yields an
undefined `floorPlan`. -/
def floorPlanOf : Option NavState → Option FloorPlan
  | none => none
  | some s => s.floorPlan

/-- The `imageUrl` state after the mount effect (FloorPlanResults.js
lines 14-20): set to the base URL prepended to `plan_image_url` when that
field is truthy, otherwise left `null`. -/
def imageUrlFor (fp : FloorPlan) : Option String :=
  match fp.plan_details.plan_image_url with
  | none => none
  | some u => if u = "" then none else some ("http://localhost:8000" ++ u)

/-- The rendered view: either the "no data" fallback (FloorPlanResults.js
lines 22-33) with its message and back-button target, or the results view
with the `src` of the rendered image element (if any), the plot-details
texts, the room-placement cards, and the back-button target. -/
inductive View where
  | noData (message : String) (backTarget : String)
  | results (imgSrc : Option String) (detailTexts : List String)
      (roomCards : List RoomPlacement) (backTarget : String)
deriving DecidableEq

/-- The `src` of the image element the view renders, `none` when no image
element is rendered. -/
def View.imageSrc : View → Option String
  | .noData _ _ => none
  | .results s _ _ _ => s

/-- The plot-details texts the view renders (empty for the fallback). -/
def View.detailTexts : View → List String
  | .noData _ _ => []
  | .results _ d _ _ => d

/-- The target of the back button of the view. -/
def View.backTarget : View → String
  | .noData _ b => b
  | .results _ _ _ b => b

/-- The render function of `FloorPlanResults`, at its steady state after
the mount effect has set `imageUrl`.  With no floor plan it renders the
fallback (lines 22-33); otherwise it renders the image element whenever
`imageUrl` is non-null (lines 57-68), the plot-details texts (lines
73-82), and the room cards (lines 85-98). -/
def render (floorPlan : Option FloorPlan) : View :=
  match floorPlan with
  | none => .noData "No floor plan data available. Please generate a new plan." "/"
  | some fp =>
      .results (imageUrlFor fp)
        ["Width: " ++ jsStr fp.plan_details.plot_width ++ " meters",
         "Length: " ++ jsStr fp.plan_details.plot_length ++ " meters",
         "Direction: " ++ fp.plan_details.direction,
         "Shape: " ++ fp.plan_details.shape,
         "Main Door: " ++ fp.plan_details.main_door]
        fp.plan_details.room_placements
        "/"

/-- What mounting `FloorPlanResults` does: the rendered view together
with the network requests issued.  The component body contains no `fetch`
call at all — its only effect, the `useEffect` at lines 14-20, sets the
image URL — so the request list is empty. -/
structure MountResult where
  view : View
  requests : List AutoVastuForm.RequestData
deriving DecidableEq

/-- Mounting the component on a given navigation state. -/
def mount (navState : Option NavState) : MountResult :=
  { view := render (floorPlanOf navState), requests := [] }

end FloorPlanResults

namespace FloorPlanGenerator

theorem enumFrom_filter_ne_map_snd_of_lt (xs : List Room) (n i : ℕ) (h : i < n) :
    ((List.enumFrom n xs).filter (fun p => p.1 ≠ i)).map Prod.snd = xs := by
  induction xs generalizing n with
  | nil => rfl
  | cons x xs ih =>
      have hne : n ≠ i := by omega
      simp [List.enumFrom, List.filter, hne]
      simpa using ih (n + 1) (by omega)

theorem enumFrom_filter_ne_map_snd (xs : List Room) (n i : ℕ) :
    ((List.enumFrom n xs).filter (fun p => p.1 ≠ n + i)).map Prod.snd =
      xs.take i ++ xs.drop (i + 1) := by
  induction xs generalizing n i with
  | nil => simp [List.enumFrom]
  | cons x xs ih =>
      cases i with
      | zero =>
          have h0 : n + 0 = n := by omega
          simp [List.enumFrom, List.filter, h0]
          simpa using enumFrom_filter_ne_map_snd_of_lt xs (n + 1) n (by omega)
      | succ j =>
          have hstep : n + (j + 1) = (n + 1) + j := by omega
          have hne : n ≠ (n + 1) + j := by omega
          rw [hstep]
          simp [List.enumFrom, List.filter, hne]
          simpa using ih (n + 1) j

theorem removeRoom_eq_take_drop (i : ℕ) (xs : List Room) :
    removeRoom i xs = xs.take i ++ xs.drop (i + 1) := by
  have h := enumFrom_filter_ne_map_snd xs 0 i
  simpa [removeRoom, List.enum] using h

end FloorPlanGenerator

open FloorPlanGenerator in
/-- Claim C10: in `FloorPlanGenerator`, `addRoom` appends exactly one default
bedroom room at the end of the rooms list (the length grows by one and all
existing rooms are unchanged in place), `removeRoom i` removes exactly the
room at index `i` while preserving the relative order of the others, and
`removeRoom` applied to the index just appended by `addRoom` restores the
original list. -/
theorem C10_rooms_add_remove (xs : List Room) (i : ℕ) (h : i < xs.length) :
    (addRoom xs).length = xs.length + 1 ∧
    (addRoom xs).take xs.length = xs ∧
    (addRoom xs)[xs.length]? = some defaultNewRoom ∧
    removeRoom i xs = xs.take i ++ xs.drop (i + 1) ∧
    (removeRoom i xs).length + 1 = xs.length ∧
    removeRoom xs.length (addRoom xs) = xs := by
  refine ⟨by simp [addRoom], by simp [addRoom], by simp [addRoom], removeRoom_eq_take_drop i xs, ?_, ?_⟩
  · rw [removeRoom_eq_take_drop]
    simp
    omega
  · rw [removeRoom_eq_take_drop]
    simp [addRoom]

open FloorPlanGenerator in
theorem C10_rooms_add_remove_witness :
    0 < ([defaultNewRoom] : List Room).length ∧
    ((addRoom [defaultNewRoom]).length = [defaultNewRoom].length + 1 ∧
     (addRoom [defaultNewRoom]).take [defaultNewRoom].length = [defaultNewRoom] ∧
     (addRoom [defaultNewRoom])[([defaultNewRoom] : List Room).length]? = some defaultNewRoom ∧
     removeRoom 0 [defaultNewRoom] =
       ([defaultNewRoom] : List Room).take 0 ++ ([defaultNewRoom] : List Room).drop 1 ∧
     (removeRoom 0 [defaultNewRoom]).length + 1 = ([defaultNewRoom] : List Room).length ∧
     removeRoom ([defaultNewRoom] : List Room).length (addRoom [defaultNewRoom]) = [defaultNewRoom]) :=
  ⟨by decide, C10_rooms_add_remove [defaultNewRoom] 0 (by decide)⟩

/-- Claim C4: rendering the results route with no navigation state renders
the no-data fallback text with a back action navigating to the form, and
renders no image element and no plot details. -/
theorem C4_direct_navigation_fallback :
    (FloorPlanResults.mount none).view =
      FloorPlanResults.View.noData
        "No floor plan data available. Please generate a new plan." "/" ∧
    ((FloorPlanResults.mount none).view).imageSrc = none ∧
    ((FloorPlanResults.mount none).view).detailTexts = [] ∧
    ((FloorPlanResults.mount none).view).backTarget = "/" := by
  refine ⟨rfl, rfl, rfl, rfl⟩

/-- Claim C2 (code bug evaluation): submitting the initial `AutoVastuForm`
state (both dimension fields empty) issues the POST with
`plot_width = 0` and `plot_length = 0`, even though `validateForm`
rejects exactly that state — `handleSubmit` never calls `validateForm`. -/
theorem C2_unvalidated_submit :
    AutoVastuForm.validateForm AutoVastuForm.initialFormData =
      ["Plot width must be greater than 0", "Plot length must be greater than 0"] ∧
    (AutoVastuForm.handleSubmit AutoVastuForm.initialFormData
        (.networkError "connection refused")).requests =
      [{ plot_direction := "north", plot_width := some 0, plot_length := some 0,
         plot_shape := "rectangular", main_door_position := "east" }] := by
  refine ⟨rfl, rfl⟩

/-- Claim C1 counterexample: a `VastuPlannerForm` state with plot width 10,
plot length 15 and the direction "South" selected — positive dimensions and
a selected direction — still fails `validateForm`, because the
cross-field vastu-conflict rule fires for a south main door on a
south-facing plot.  So validation does not pass for every such state. -/
theorem C1_counterexample :
    (VastuPlannerForm.FormData.plotWidth
        ⟨some 15, some 10, "South", "South", "", "", "", false⟩ = some 10 ∧ (0:ℚ) < 10) ∧
    (VastuPlannerForm.FormData.plotLength
        ⟨some 15, some 10, "South", "South", "", "", "", false⟩ = some 15 ∧ (0:ℚ) < 15) ∧
    VastuPlannerForm.FormData.plotDirection
        ⟨some 15, some 10, "South", "South", "", "", "", false⟩ ≠ "" ∧
    VastuPlannerForm.validateForm
        ⟨some 15, some 10, "South", "South", "", "", "", false⟩ ≠ [] := by
  refine ⟨⟨rfl, by norm_num⟩, ⟨rfl, by norm_num⟩, by decide, by decide⟩

/-- Claim C1 amended: for `AutoVastuForm`, any state whose numeric plot
width and plot length are positive passes `validateForm`; for
`VastuPlannerForm`, a state with positive dimensions and a selected
direction passes `validateForm` provided additionally the main door and
the plot direction are not both "South". -/
theorem C1_amended_validation_passes :
    (∀ (f : AutoVastuForm.FormData) (w l : ℚ),
        f.plot_width = .num w → f.plot_length = .num l → 0 < w → 0 < l →
        AutoVastuForm.validateForm f = []) ∧
    (∀ (f : VastuPlannerForm.FormData) (w l : ℚ),
        f.plotWidth = some w → f.plotLength = some l → 0 < w → 0 < l →
        f.plotDirection ≠ "" →
        ¬(f.mainDoor = "South" ∧ f.plotDirection = "South") →
        VastuPlannerForm.validateForm f = []) := by
  constructor
  · intro f w l hw hl hw0 hl0
    simp [AutoVastuForm.validateForm, hw, hl, JSVal.truthy, JSVal.leZero]
    constructor
    · constructor
      · exact fun h => absurd h (ne_of_gt hw0)
      · exact hw0
    · constructor
      · exact fun h => absurd h (ne_of_gt hl0)
      · exact hl0
  · intro f w l hw hl hw0 hl0 hdir hconf
    simp [VastuPlannerForm.validateForm, hw, hl, hdir]
    intro hsouth
    exact fun hd => hconf ⟨hsouth, hd⟩

theorem C1_amended_witness :
    AutoVastuForm.validateForm
      { plot_direction := "north", plot_width := .num 10, plot_length := .num 15,
        plot_shape := "rectangular", main_door_position := "east" } = [] ∧
    VastuPlannerForm.validateForm
      { plotLength := some 15, plotWidth := some 10, plotDirection := "North",
        mainDoor := "East", kitchenPreference := "", poojaRoom := "",
        bedrooms := "", parking := false } = [] :=
  ⟨C1_amended_validation_passes.1 _ 10 15 rfl rfl (by norm_num) (by norm_num),
   C1_amended_validation_passes.2 _ 10 15 rfl rfl (by norm_num) (by norm_num)
     (by decide) (by decide)⟩

/-- Claim C3 counterexample: mounting `FloorPlanResults` on a navigation
state that carries a specification (`originalInput`) but no floor-plan
data performs no network request at all, and renders the no-data fallback
as its result — contradicting the claim that the component performs the
network request using the carried specification before rendering. -/
theorem C3_counterexample :
    (FloorPlanResults.mount (some
        { floorPlan := none,
          originalInput := some
            { plot_direction := "north", plot_width := some 10, plot_length := some 15,
              plot_shape := "rectangular", main_door_position := "east" } })).requests = [] ∧
    (FloorPlanResults.mount (some
        { floorPlan := none,
          originalInput := some
            { plot_direction := "north", plot_width := some 10, plot_length := some 15,
              plot_shape := "rectangular", main_door_position := "east" } })).view =
      FloorPlanResults.View.noData
        "No floor plan data available. Please generate a new plan." "/" :=
  ⟨rfl, rfl⟩

/-- Claim C3 amended: `FloorPlanResults` never performs a network request
on mount; when floor-plan data is absent from the navigation state it
renders the no-data fallback.  The network request is instead performed by
`AutoVastuForm.handleSubmit` before navigating: whenever it navigates to
the results route, it has issued the request. -/
theorem C3_amended_no_fetch_on_mount :
    (∀ ns : Option FloorPlanResults.NavState,
        (FloorPlanResults.mount ns).requests = []) ∧
    (∀ ns : Option FloorPlanResults.NavState,
        FloorPlanResults.floorPlanOf ns = none →
        (FloorPlanResults.mount ns).view =
          FloorPlanResults.View.noData
            "No floor plan data available. Please generate a new plan." "/") ∧
    (∀ (f : AutoVastuForm.FormData) (o : AutoVastuForm.FetchOutcome),
        (AutoVastuForm.handleSubmit f o).navigated.isSome →
        (AutoVastuForm.handleSubmit f o).requests ≠ []) := by
  refine ⟨fun ns => rfl, fun ns h => ?_, fun f o h => ?_⟩
  · simp [FloorPlanResults.mount, h, FloorPlanResults.render]
  · unfold AutoVastuForm.handleSubmit at *
    by_cases hguard : ((AutoVastuForm.requestDataOf f).plot_width.isNone ||
        (AutoVastuForm.requestDataOf f).plot_length.isNone) = true
    · simp [hguard] at h
    · cases o with
      | networkError msg => simp [hguard]
      | response ok detail body =>
          by_cases hok : ok = true
          · simp [hguard, hok]
          · simp [hguard, hok]

theorem C3_amended_witness :
    (FloorPlanResults.mount none).requests = [] ∧
    (FloorPlanResults.mount none).view =
      FloorPlanResults.View.noData
        "No floor plan data available. Please generate a new plan." "/" ∧
    (AutoVastuForm.handleSubmit
        { plot_direction := "north", plot_width := .num 10, plot_length := .num 15,
          plot_shape := "rectangular", main_door_position := "east" }
        (.response true none ⟨⟨10, 15, "north", "rectangular", "east", none, [], []⟩⟩)).requests ≠ [] :=
  ⟨C3_amended_no_fetch_on_mount.1 none,
   C3_amended_no_fetch_on_mount.2.1 none rfl,
   C3_amended_no_fetch_on_mount.2.2 _ _ (by decide)⟩

/-- Claim C5 counterexample: a `VastuPlannerForm` state whose plot width
field holds the (non-empty, hence truthy) value 0 — so width ≤ 0 — passes
`validateForm` with no error at all: the claim that validation fails with
a specific message for a non-positive dimension is false for this
variant. -/
theorem C5_counterexample :
    (VastuPlannerForm.FormData.plotWidth
        ⟨some 15, some 0, "North", "", "", "", "", false⟩ = some 0 ∧ (0:ℚ) ≤ 0) ∧
    VastuPlannerForm.validateForm
        ⟨some 15, some 0, "North", "", "", "", "", false⟩ = [] := by
  refine ⟨⟨rfl, le_refl 0⟩, by decide⟩

/-- Claim C5 amended: in `AutoVastuForm`, a non-positive numeric width or
length fails `validateForm` with the specific message for the offending
dimension; in `VastuPlannerForm`, `validateForm` only reports
"Plot dimensions are required" and only when a dimension field is empty —
a non-empty non-positive value passes. -/
theorem C5_amended_nonpositive_fails :
    (∀ (f : AutoVastuForm.FormData) (w : ℚ), f.plot_width = .num w → w ≤ 0 →
        "Plot width must be greater than 0" ∈ AutoVastuForm.validateForm f) ∧
    (∀ (f : AutoVastuForm.FormData) (l : ℚ), f.plot_length = .num l → l ≤ 0 →
        "Plot length must be greater than 0" ∈ AutoVastuForm.validateForm f) ∧
    (∀ f : VastuPlannerForm.FormData,
        f.plotWidth = none ∨ f.plotLength = none →
        ("plot", "Plot dimensions are required") ∈ VastuPlannerForm.validateForm f) := by
  refine ⟨fun f w hw hle => ?_, fun f l hl hle => ?_, fun f h => ?_⟩
  · simp [AutoVastuForm.validateForm, hw, JSVal.leZero, hle]
  · simp [AutoVastuForm.validateForm, hl, JSVal.leZero, hle]
  · rcases h with h | h <;> simp [VastuPlannerForm.validateForm, h]

theorem C5_amended_witness :
    "Plot width must be greater than 0" ∈ AutoVastuForm.validateForm
      { plot_direction := "north", plot_width := .num (-5), plot_length := .num 15,
        plot_shape := "rectangular", main_door_position := "east" } ∧
    "Plot length must be greater than 0" ∈ AutoVastuForm.validateForm
      { plot_direction := "north", plot_width := .num 10, plot_length := .num 0,
        plot_shape := "rectangular", main_door_position := "east" } ∧
    ("plot", "Plot dimensions are required") ∈ VastuPlannerForm.validateForm
      { plotLength := some 15, plotWidth := none, plotDirection := "North",
        mainDoor := "", kitchenPreference := "", poojaRoom := "",
        bedrooms := "", parking := false } :=
  ⟨C5_amended_nonpositive_fails.1 _ (-5) rfl (by norm_num),
   C5_amended_nonpositive_fails.2.1 _ 0 rfl le_rfl,
   C5_amended_nonpositive_fails.2.2 _ (Or.inl rfl)⟩

/-- Claim C6 counterexample: for a successful response whose image URL
field is "/plans/p1.png", the rendered image element has
src "http://localhost:8000/plans/p1.png", which is not equal to the URL
field itself — the claim that the src equals that URL is false. -/
theorem C6_counterexample :
    (FloorPlanResults.render (some ⟨⟨10, 15, "north", "rectangular", "east",
        some "/plans/p1.png", [], []⟩⟩)).imageSrc ≠ some "/plans/p1.png" ∧
    (FloorPlanResults.render (some ⟨⟨10, 15, "north", "rectangular", "east",
        some "/plans/p1.png", [], []⟩⟩)).imageSrc =
      some "http://localhost:8000/plans/p1.png" := by
  refine ⟨by decide, rfl⟩

/-- Claim C6 amended: for every successful response containing a non-empty
image URL field, the results view renders an image element whose src
equals the backend base URL "http://localhost:8000" concatenated with
that field. -/
theorem C6_amended_image_src (fp : FloorPlan) (u : String)
    (hu : fp.plan_details.plan_image_url = some u) (hne : u ≠ "") :
    (FloorPlanResults.render (some fp)).imageSrc =
      some ("http://localhost:8000" ++ u) := by
  simp [FloorPlanResults.render, FloorPlanResults.View.imageSrc,
    FloorPlanResults.imageUrlFor, hu, hne]

theorem C6_amended_witness :
    (FloorPlanResults.render (some ⟨⟨10, 15, "north", "rectangular", "east",
        some "/plans/p2.png", [], []⟩⟩)).imageSrc =
      some ("http://localhost:8000" ++ "/plans/p2.png") :=
  C6_amended_image_src _ "/plans/p2.png" rfl (by decide)

/-- Claim C7: submitting the example input (width 10, length 15, direction
north, rectangular shape, east main door) successfully navigates to the
results route carrying the response body and the original input, and —
given that the successful response echoes the dimensions in its
`plan_details` (the plot-echo fields of the external service, which the
client merely displays) — the results view shows the texts
"Width: 10 meters" and "Length: 15 meters". -/
theorem C7_example_flow (body : FloorPlan)
    (hw : body.plan_details.plot_width = 10)
    (hl : body.plan_details.plot_length = 15) :
    (AutoVastuForm.handleSubmit
        { plot_direction := "north", plot_width := .num 10, plot_length := .num 15,
          plot_shape := "rectangular", main_door_position := "east" }
        (.response true none body)).navigated =
      some (body,
        { plot_direction := "north", plot_width := some 10, plot_length := some 15,
          plot_shape := "rectangular", main_door_position := "east" }) ∧
    "Width: 10 meters" ∈ (FloorPlanResults.render (some body)).detailTexts ∧
    "Length: 15 meters" ∈ (FloorPlanResults.render (some body)).detailTexts := by
  refine ⟨rfl, ?_, ?_⟩
  · simp [FloorPlanResults.render, FloorPlanResults.View.detailTexts, hw]
    left
    decide
  · simp [FloorPlanResults.render, FloorPlanResults.View.detailTexts, hl]
    right
    left
    decide

theorem C7_example_flow_witness :
    (AutoVastuForm.handleSubmit
        { plot_direction := "north", plot_width := .num 10, plot_length := .num 15,
          plot_shape := "rectangular", main_door_position := "east" }
        (.response true none
          ⟨⟨10, 15, "north", "rectangular", "east", some "/plans/p3.png", [], []⟩⟩)).navigated =
      some (⟨⟨10, 15, "north", "rectangular", "east", some "/plans/p3.png", [], []⟩⟩,
        { plot_direction := "north", plot_width := some 10, plot_length := some 15,
          plot_shape := "rectangular", main_door_position := "east" }) ∧
    "Width: 10 meters" ∈ (FloorPlanResults.render (some
        ⟨⟨10, 15, "north", "rectangular", "east", some "/plans/p3.png", [], []⟩⟩)).detailTexts ∧
    "Length: 15 meters" ∈ (FloorPlanResults.render (some
        ⟨⟨10, 15, "north", "rectangular", "east", some "/plans/p3.png", [], []⟩⟩)).detailTexts :=
  C7_example_flow _ rfl rfl

/-- Claim C8: for every failed submission — a transport error or a non-2xx
response — `handleSubmit` sets a user-visible error message, clears the
loading flag (returning to idle), performs no navigation to the results
view, and leaves the entered form field values unchanged. -/
theorem C8_failed_submission (f : AutoVastuForm.FormData)
    (o : AutoVastuForm.FetchOutcome)
    (hw : (AutoVastuForm.requestDataOf f).plot_width.isSome = true)
    (hl : (AutoVastuForm.requestDataOf f).plot_length.isSome = true)
    (hfail : o.isFailure = true) :
    ((AutoVastuForm.handleSubmit f o).error).isSome = true ∧
    (AutoVastuForm.handleSubmit f o).loading = false ∧
    (AutoVastuForm.handleSubmit f o).navigated = none ∧
    (AutoVastuForm.handleSubmit f o).formData = f := by
  unfold AutoVastuForm.handleSubmit
  have hguard : ((AutoVastuForm.requestDataOf f).plot_width.isNone ||
      (AutoVastuForm.requestDataOf f).plot_length.isNone) = false := by
    simp [Option.isNone_eq_false_iff, Option.isSome_iff_exists] at *
    exact ⟨hw, hl⟩
  cases o with
  | networkError msg => simp [hguard]
  | response ok detail body =>
      have hok : ok = false := by
        simpa [AutoVastuForm.FetchOutcome.isFailure] using hfail
      simp [hguard, hok]

theorem C8_failed_submission_witness :
    ((AutoVastuForm.handleSubmit
        { plot_direction := "north", plot_width := .num 10, plot_length := .num 15,
          plot_shape := "rectangular", main_door_position := "east" }
        (.networkError "connection refused")).error).isSome = true ∧
    (AutoVastuForm.handleSubmit
        { plot_direction := "north", plot_width := .num 10, plot_length := .num 15,
          plot_shape := "rectangular", main_door_position := "east" }
        (.networkError "connection refused")).loading = false ∧
    (AutoVastuForm.handleSubmit
        { plot_direction := "north", plot_width := .num 10, plot_length := .num 15,
          plot_shape := "rectangular", main_door_position := "east" }
        (.networkError "connection refused")).navigated = none ∧
    (AutoVastuForm.handleSubmit
        { plot_direction := "north", plot_width := .num 10, plot_length := .num 15,
          plot_shape := "rectangular", main_door_position := "east" }
        (.networkError "connection refused")).formData =
      { plot_direction := "north", plot_width := .num 10, plot_length := .num 15,
        plot_shape := "rectangular", main_door_position := "east" } :=
  C8_failed_submission _ _ (by decide) (by decide) (by decide)

/-- Claim C9: if the plot width or plot length field holds `NaN` (as
produced by `parseFloat` of a cleared input), `handleSubmit` sets the
error message "Please enter valid numbers for width and length", clears
the loading flag, and issues no network request and no navigation. -/
theorem C9_nan_guard (f : AutoVastuForm.FormData)
    (o : AutoVastuForm.FetchOutcome)
    (h : f.plot_width.toNumber = none ∨ f.plot_length.toNumber = none) :
    (AutoVastuForm.handleSubmit f o).error =
      some "Please enter valid numbers for width and length" ∧
    (AutoVastuForm.handleSubmit f o).loading = false ∧
    (AutoVastuForm.handleSubmit f o).requests = [] ∧
    (AutoVastuForm.handleSubmit f o).navigated = none := by
  unfold AutoVastuForm.handleSubmit
  have hguard : ((AutoVastuForm.requestDataOf f).plot_width.isNone ||
      (AutoVastuForm.requestDataOf f).plot_length.isNone) = true := by
    rcases h with h | h <;> simp [AutoVastuForm.requestDataOf, h]
  simp [hguard]

theorem C9_nan_guard_witness :
    (AutoVastuForm.handleSubmit
        { plot_direction := "north", plot_width := .nan, plot_length := .num 15,
          plot_shape := "rectangular", main_door_position := "east" }
        (.networkError "unused")).error =
      some "Please enter valid numbers for width and length" ∧
    (AutoVastuForm.handleSubmit
        { plot_direction := "north", plot_width := .nan, plot_length := .num 15,
          plot_shape := "rectangular", main_door_position := "east" }
        (.networkError "unused")).loading = false ∧
    (AutoVastuForm.handleSubmit
        { plot_direction := "north", plot_width := .nan, plot_length := .num 15,
          plot_shape := "rectangular", main_door_position := "east" }
        (.networkError "unused")).requests = [] ∧
    (AutoVastuForm.handleSubmit
        { plot_direction := "north", plot_width := .nan, plot_length := .num 15,
          plot_shape := "rectangular", main_door_position := "east" }
        (.networkError "unused")).navigated = none :=
  C9_nan_guard _ _ (Or.inl rfl)
